import Mathlib

/-!
# Verification of the csv-analyzer core

A shallow embedding, in Lean 4, of the core subsystems of the csv-analyzer
repository, together with theorems settling the specification claims:

* `src/src/core/sandbox_executor.py` — static policy check and sandboxed
  execution (`SandboxExecutor._check_code_safety`, `_execute_with_timeout`,
  `execute`);
* `src/src/core/token_counter.py` — token estimation and context-budget
  management (`TokenCounter`);
* `src/src/core/compactor.py` — deterministic history compaction
  (`ConversationCompactor`);
* `src/src/core/session.py` — turn-to-dict projection
  (`SessionManager._turns_to_dicts`);
* `src/src/core/workflow.py` — the generate/execute retry loop
  (`AnalysisWorkflow._generate_and_execute_with_retry`).

Python strings are modelled by `String`, with the Python string operations
(`in`, `startswith`, `endswith`, `lower`, `strip`, slicing, `split`,
`count`) re-implemented over the character list `String.data` by structural
recursion, so that every definition evaluates inside the kernel.
Python dicts holding execution results are modelled by the structure
`PyResult`, where an `Option` field value `none` means the key is absent.
Quantities the source computes with Python floats (token-estimate weights,
the compaction threshold) are modelled with exact rationals `ℚ`; the
weights in play (1.5, 0.25, 0.4, 0.7) are small enough that `int(...)` of
the double computation and `Nat.floor`/`Int.floor` of the rational one
agree at the repository's configuration.
-/

/-! ## Python string primitives (over `List Char`) -/

/-- Python `sub in s` for `List Char` (contiguous substring test),
by structural recursion so it evaluates in the kernel. -/
def listContainsSub (sub : List Char) : List Char → Bool
  | [] => sub.isEmpty
  | c :: rest => sub.isPrefixOf (c :: rest) || listContainsSub sub rest

/-- Python `sub in s` on strings. -/
def pyContains (s sub : String) : Bool := listContainsSub sub.data s.data

/-- Python `s.lower()`. -/
def pyLower (s : String) : String := ⟨s.data.map Char.toLower⟩

/-- Python `s.startswith(p)`. -/
def pyStartsWith (s p : String) : Bool := p.data.isPrefixOf s.data

/-- Python `s.endswith(p)`. -/
def pyEndsWith (s p : String) : Bool := p.data.reverse.isPrefixOf s.data.reverse

/-- Python `s[:n]` (first `n` characters). -/
def pyTake (s : String) (n : ℕ) : String := ⟨s.data.take n⟩

/-- Python `len(s)` (number of characters). -/
def pyLen (s : String) : ℕ := s.data.length

/-- Python `s.strip()` on a character list. -/
def pyStripList (l : List Char) : List Char :=
  ((l.dropWhile Char.isWhitespace).reverse.dropWhile Char.isWhitespace).reverse

/-- Python `s.strip()`. -/
def pyStrip (s : String) : String := ⟨pyStripList s.data⟩

/-- Python `s.split(sep)` for a one-character separator. -/
def splitChar (sep : Char) : List Char → List (List Char)
  | [] => [[]]
  | c :: rest =>
      let r := splitChar sep rest
      if c = sep then [] :: r
      else
        match r with
        | [] => [[c]]
        | h :: t => (c :: h) :: t

/-- Python `s.split('\n')`. -/
def pySplitLines (s : String) : List String := (splitChar '\x0a' s.data).map (⟨·⟩)

/-- Python `c in s` for a single character. -/
def pyCharIn (s : String) (c : Char) : Bool := s.data.contains c

/-- Python `s.count(sub)`: number of non-overlapping occurrences of `sub`
in `s`, scanning from the left and skipping past each match.
(Python returns `len(s) + 1` for the empty needle.) -/
def pyCountList (sub s : List Char) : ℕ :=
  if sub = [] then s.length + 1
  else
    match s with
    | [] => 0
    | c :: rest =>
        if sub.isPrefixOf (c :: rest) then 1 + pyCountList sub ((c :: rest).drop sub.length)
        else pyCountList sub rest
termination_by s.length
decreasing_by
  · simp only [List.length_drop, List.length_cons]
    have hs : sub.length ≥ 1 := by
      cases sub with
      | nil => simp_all
      | cons a as => simp
    omega
  · simp

/-- Python `s.count(sub)` on strings. -/
def pyCount (s sub : String) : ℕ := pyCountList sub.data s.data

/-! ## Execution-result dictionaries

`PyResult` models the result dicts produced by `SandboxExecutor.execute`,
stored in `ConversationTurn.execution_result` (after the workflow adds the
`plot_saved` / `plot_path` keys) and placed in the `result` slot of history
dicts.  A field of value `none` models an absent key; `plot_path`'s value
may itself be Python `None`, hence `Option (Option String)`. -/

structure PyResult where
  success : Bool
  stdout : Option String := none
  stderr : Option String := none
  error_type : Option String := none
  error : Option String := none
  error_message : Option String := none
  traceback : Option String := none
  plot_saved : Option Bool := none
  plot_path : Option (Option String) := none
deriving DecidableEq

/-! ## SandboxExecutor: the static policy check

`SandboxExecutor._check_code_safety` iterates `ast.walk(ast.parse(code))`
and inspects each node in isolation (plus, for `ast.Call`, whether its
`func` is an `ast.Name` and its id).  `ast` is the Python standard
library, external to the repository, so a successfully parsed program is
modelled by the node sequence that `ast.walk` yields: a `List PyNode`,
each node carrying exactly the data `_check_code_safety` reads. -/

/-- One node of the walked AST, as seen by `_check_code_safety`. -/
inductive PyNode where
  /-- an `import a, b, …` statement; carries the imported module names -/
  | importStmt (names : List String)
  /-- a `from M import …` statement; `module` is `None` for `from . import …` -/
  | importFromStmt (module : Option String)
  /-- a call; `funcName = some id` iff the call's `func` is an `ast.Name id` -/
  | callStmt (funcName : Option String)
  /-- an attribute access `value.attr` -/
  | attributeStmt (attr : String)
  /-- any other node kind (Module, Name, Constant, BinOp, …) -/
  | otherNode
deriving DecidableEq

namespace SandboxExecutor

/-- Source `SandboxExecutor.FORBIDDEN_BUILTINS`. -/
def FORBIDDEN_BUILTINS : List String :=
  ["eval", "exec", "compile",
   "__import__", "open", "input",
   "raw_input", "execfile", "file",
   "reload", "vars", "locals", "globals",
   "dir", "getattr", "setattr", "delattr",
   "hasattr"]

/-- Source `SandboxExecutor.FORBIDDEN_MODULES`. -/
def FORBIDDEN_MODULES : List String :=
  ["os", "sys", "subprocess", "shutil",
   "socket", "urllib", "requests",
   "pickle", "shelve", "marshal",
   "importlib", "__builtin__", "builtins"]

/-- The violation (if any) that `_check_code_safety`'s loop body raises at a
single walked node: `some message` models `raise CodeSecurityError(message)`. -/
def nodeViolation : PyNode → Option String
  | .importStmt names =>
      names.findSome? fun nm =>
        if nm ∈ FORBIDDEN_MODULES then some ("禁止导入模块: " ++ nm) else none
  | .importFromStmt module =>
      match module with
      | some m => if m ∈ FORBIDDEN_MODULES then some ("禁止导入模块: " ++ m) else none
      | none => none
  | .callStmt funcName =>
      match funcName with
      | some fn => if fn ∈ FORBIDDEN_BUILTINS then some ("禁止使用函数: " ++ fn) else none
      | none => none
  | .attributeStmt attr =>
      if pyStartsWith attr "__" && pyEndsWith attr "__" then
        some ("禁止访问魔术属性: " ++ attr)
      else none
  | .otherNode => none

/-- Source `SandboxExecutor._check_code_safety` on a successfully parsed program,
given as its walked node sequence: the first violation raised, or `none`
when the walk completes (the check passes). -/
def check_code_safety (nodes : List PyNode) : Option String :=
  nodes.findSome? nodeViolation

/-- Whether the walked program contains any module-import construct. -/
def containsImport (nodes : List PyNode) : Bool :=
  nodes.any fun n =>
    match n with
    | .importStmt _ => true
    | .importFromStmt _ => true
    | _ => false

/-- Whether the walked program contains an attribute access whose name
follows the double-underscore "dunder" convention. -/
def containsDunderAttr (nodes : List PyNode) : Bool :=
  nodes.any fun n =>
    match n with
    | .attributeStmt attr => pyStartsWith attr "__" && pyEndsWith attr "__"
    | _ => false

/-! ### `_execute_with_timeout` and `execute`

The actual run of `exec(code, globals)` is external behaviour (it depends
on the bound dataset and the preloaded libraries); it is modelled by an
`ExecEvent` saying how the run ended and what output was captured.
`execute_with_timeout` and `execute` translate the source's construction
of the result dict for each event. -/

/-- How the sandboxed `exec` call ended. -/
inductive ExecEvent where
  /-- `exec` returned normally; captured stdout/stderr -/
  | completed (stdout stderr : String)
  /-- the SIGALRM handler fired `TimeoutError`; captured partial output and
  the `traceback.format_exc()` text -/
  | timedOut (stdout stderr tb : String)
  /-- `exec` raised: exception class name, `str(e)`, `traceback.format_exc()`,
  captured partial output -/
  | raised (etype emsg tb stdout stderr : String)
deriving DecidableEq

/-- The `TimeoutError` message `f"代码执行超时（{timeout}秒）"`. -/
def timeoutErrorMessage (timeout : ℕ) : String :=
  "代码执行超时（" ++ toString timeout ++ "秒）"

/-- The friendly replacement message for `__import__`-related runtime errors
(`_execute_with_timeout`, lines 281–290). -/
def importHintRuntime : String :=
  "__import__ not found: 代码中使用了__import__()函数，这在安全沙箱中是被禁止的。\n" ++
  "解决方案：不要使用任何import语句，直接使用预加载的变量：\n" ++
  "  - pd (pandas)\n" ++
  "  - np (numpy)\n" ++
  "  - plt (matplotlib.pyplot)\n" ++
  "  - sns (seaborn)\n" ++
  "  - datetime, timedelta, math\n" ++
  "所有这些变量已经预加载，可以直接使用。"

/-- The friendly replacement message for `__import__`-related security
violations (`execute`, lines 329–338). -/
def importHintSecurity : String :=
  "代码安全检查失败: 代码中使用了__import__()函数，这在安全沙箱中是被禁止的。\n" ++
  "解决方案：不要使用任何import语句，直接使用预加载的变量：\n" ++
  "  - pd (pandas)\n" ++
  "  - np (numpy)\n" ++
  "  - plt (matplotlib.pyplot)\n" ++
  "  - sns (seaborn)\n" ++
  "  - datetime, timedelta, math\n" ++
  "所有这些变量已经预加载，可以直接使用。"

/-- The rewrite of `(error_type, error_msg)` for `__import__` errors:
`if '__import__' in error_msg.lower() or '__import__ not found' in error_msg`. -/
def classifyRuntimeError (etype emsg : String) : String × String :=
  if pyContains (pyLower emsg) "__import__" || pyContains emsg "__import__ not found" then
    ("ImportError", importHintRuntime)
  else (etype, emsg)

/-- Source `SandboxExecutor._execute_with_timeout`: the result dict built for each
way the `exec` call can end. -/
def execute_with_timeout (timeout : ℕ) (ev : ExecEvent) : PyResult :=
  match ev with
  | .completed stdout stderr =>
      { success := true, stdout := some stdout, stderr := some stderr }
  | .timedOut stdout stderr tb =>
      { success := false,
        error_type := some "TimeoutError",
        error := some (timeoutErrorMessage timeout),
        traceback := some tb,
        stdout := some stdout, stderr := some stderr }
  | .raised etype emsg tb stdout stderr =>
      let p := classifyRuntimeError etype emsg
      { success := false,
        error_type := some p.1,
        error := some p.2,
        error_message := some p.2,
        traceback := some tb,
        stdout := some stdout, stderr := some stderr }

/-- Source `SandboxExecutor.execute`.  `parsed = none` models a code string that
`ast.parse` rejects: `_check_code_safety` then returns silently and the
`compile` stage raises `SyntaxError` with message `synMsg` and traceback
`syntb`.  The second component records whether `_execute_with_timeout`
(and hence `exec`) was reached at all. -/
def execute (parsed : Option (List PyNode)) (synMsg syntb : String)
    (timeout : ℕ) (ev : ExecEvent) : PyResult × Bool :=
  match parsed with
  | none =>
      ({ success := false,
         error_type := some "SyntaxError",
         error := some synMsg,
         traceback := some syntb }, false)
  | some nodes =>
      match check_code_safety nodes with
      | some violation =>
          let msg :=
            if pyContains (pyLower violation) "__import__" then importHintSecurity
            else violation
          ({ success := false,
             error_type := some "SecurityError",
             error := some msg,
             error_message := some msg,
             traceback := some "" }, false)
      | none => (execute_with_timeout timeout ev, true)

end SandboxExecutor

/-! ## TokenCounter (`src/src/core/token_counter.py`)

Floating-point arithmetic is modelled with exact rationals.  Python's
`int()` truncates toward zero; every quantity it is applied to here is
non-negative, so it is `Int.floor` / `Nat.floor` (the definition keeps the
truncating form `pyInt` to match the source). -/

/-- Python `int(q)`: truncation toward zero. -/
def pyInt (q : ℚ) : ℤ := if 0 ≤ q then ⌊q⌋ else ⌈q⌉

structure TokenCounter where
  model_max_tokens : ℕ
  compression_threshold : ℚ
  safe_max_tokens : ℤ
deriving DecidableEq

namespace TokenCounter

/-- Source `TokenCounter.MODEL_MAX_TOKENS` (128K for GLM-4-plus). -/
def MODEL_MAX_TOKENS : ℕ := 128000

/-- Source `TokenCounter.DEFAULT_THRESHOLD` (0.7). -/
def DEFAULT_THRESHOLD : ℚ := 7 / 10

/-- Source `TokenCounter.__init__`.  Python's `x = arg or DEFAULT` takes the
default both for `None` and for a falsy `0`;
`safe_max_tokens = int(model_max_tokens * compression_threshold)`. -/
def init (modelMaxTokens : Option ℕ) (compressionThreshold : Option ℚ) : TokenCounter :=
  let mm := match modelMaxTokens with
    | some v => if v = 0 then MODEL_MAX_TOKENS else v
    | none => MODEL_MAX_TOKENS
  let ct := match compressionThreshold with
    | some v => if v = 0 then DEFAULT_THRESHOLD else v
    | none => DEFAULT_THRESHOLD
  { model_max_tokens := mm,
    compression_threshold := ct,
    safe_max_tokens := pyInt ((mm : ℚ) * ct) }

/-- The code-density indicators of `estimate_tokens`. -/
def codeIndicators : List String :=
  ["def ", "import ", "print(", "if ", "for ", "while "]

/-- A character in the CJK range `'一' <= c <= '鿿'`. -/
def isChineseChar (c : Char) : Bool := 0x4e00 ≤ c.toNat && c.toNat ≤ 0x9fff

/-- Source `sum(text.count(indicator) for indicator in code_indicators)`. -/
def codeDensity (text : String) : ℕ :=
  (codeIndicators.map fun ind => pyCount text ind).sum

/-- Source `TokenCounter.estimate_tokens`:
Chinese characters weigh 1.5 tokens, the rest 0.25 (0.4 for code-heavy
text, i.e. when the code density exceeds 5). -/
def estimate_tokens (text : String) : ℕ :=
  if text = "" then 0
  else
    let chinese_count := text.data.countP isChineseChar
    let is_code_heavy := codeDensity text > 5
    let total_chars := pyLen text
    let english_chars := total_chars - chinese_count
    ⌊(chinese_count : ℚ) * (3 / 2) +
      (english_chars : ℚ) * (if is_code_heavy then 2 / 5 else 1 / 4)⌋₊

/-- Source `TokenCounter.should_compact`: `total_tokens >= self.safe_max_tokens`. -/
def should_compact (c : TokenCounter) (totalTokens : ℕ) : Bool :=
  c.safe_max_tokens ≤ (totalTokens : ℤ)

end TokenCounter

/-! ## History dicts

The dicts that `SessionManager._turns_to_dicts` produces and that both
`TokenCounter.calculate_context_tokens` and `ConversationCompactor`
consume: `{question, code, result, explanation}`. -/

structure HistTurn where
  question : String
  code : String
  result : PyResult
  explanation : String
deriving DecidableEq

namespace TokenCounter

/-- The token-count breakdown returned by `calculate_context_tokens`. -/
structure ContextTokens where
  question : ℕ
  global_context : ℕ
  history : ℕ
  total : ℕ
deriving DecidableEq

/-- One turn's contribution to `tokens['history']`: question + code +
(stdout, only when `result.get('success')` is truthy) + explanation. -/
def turnHistoryTokens (turn : HistTurn) : ℕ :=
  estimate_tokens turn.question + estimate_tokens turn.code +
    (if turn.result.success then estimate_tokens (turn.result.stdout.getD "") else 0) +
    estimate_tokens turn.explanation

/-- Source `TokenCounter.calculate_context_tokens`.  `globalContextTokens` is the
optional explicit argument; when it is `None` the source asks the
process-wide global-context singleton, modelled by `globalContextPrompt`
(`some p` = the singleton is ready with prompt `p`, `none` = not ready,
contributing 0). -/
def calculate_context_tokens (question : String) (history : List HistTurn)
    (globalContextTokens : Option ℕ) (globalContextPrompt : Option String) :
    ContextTokens :=
  let qT := estimate_tokens question
  let gT := match globalContextTokens with
    | some n => n
    | none =>
        match globalContextPrompt with
        | some p => estimate_tokens p
        | none => 0
  let hT := (history.map turnHistoryTokens).sum
  { question := qT, global_context := gT, history := hT, total := qT + gT + hT }

end TokenCounter

/-! ## ConversationCompactor (`src/src/core/compactor.py`) -/

/-- Python `history[:-k]`: for `k = 0` the slice `[:0]` is empty. -/
def pySliceDropLast {α : Type} (l : List α) (k : ℕ) : List α :=
  if k = 0 then [] else l.take (l.length - k)

/-- Python `history[-k:]`: for `k = 0` the slice `[0:]` is the whole list;
a negative start beyond the front clamps to the whole list, which matches
truncated `ℕ` subtraction in `l.drop (l.length - k)`. -/
def pySliceLast {α : Type} (l : List α) (k : ℕ) : List α :=
  if k = 0 then l else l.drop (l.length - k)

namespace ConversationCompactor

/-- One extracted item `{'turn': i + 1, '<category>': text}`. -/
structure KeyItem where
  turn : ℕ
  text : String
deriving DecidableEq

/-- The `key_info` accumulator of `_extract_key_information`.
(`variables_defined` is initialised in the source but never written or
read, and is omitted.) -/
structure KeyInfo where
  important_decisions : List KeyItem
  code_changes : List KeyItem
  errors_encountered : List KeyItem
  key_findings : List KeyItem
deriving DecidableEq

/-- Source `decision_keywords`. -/
def decisionKeywords : List String := ["决定", "选择", "采用", "decided", "chose"]

/-- Source `finding_keywords`. -/
def findingKeywords : List String := ["发现", "结果显示", "数据表明", "found", "shows"]

/-- The key lines extracted from a turn's code: strip each line, keep those
that start with `def ` or contain `=` in their first 30 characters,
truncate each kept line to 60 characters, stop after 3. -/
def keyLinesOf (code : String) : List String :=
  (((pySplitLines code).map pyStrip).filter fun line =>
      pyStartsWith line "def " || pyCharIn (pyTake line 30) '=').map (pyTake · 60)
    |>.take 3

/-- The loop body of `_extract_key_information`, for the turn at 0-based
index `i`. -/
def extractTurn (acc : KeyInfo) (i : ℕ) (turn : HistTurn) : KeyInfo :=
  let question := turn.question
  let code := turn.code
  let result := turn.result
  let explanation := turn.explanation
  let acc :=
    if decisionKeywords.any fun kw =>
        pyContains (pyLower question) kw || pyContains (pyLower explanation) kw then
      { acc with important_decisions :=
          acc.important_decisions ++ [⟨i + 1, pyTake question 100⟩] }
    else acc
  let acc :=
    if code ≠ "" ∧ pyLen code > 50 then
      let key_lines := keyLinesOf code
      if key_lines ≠ [] then
        { acc with code_changes :=
            acc.code_changes ++ [⟨i + 1, String.intercalate "; " key_lines⟩] }
      else acc
    else acc
  let acc :=
    if ¬ result.success then
      { acc with errors_encountered :=
          acc.errors_encountered ++
            [⟨i + 1, result.error_type.getD "Unknown" ++ ": " ++
                pyTake (result.error.getD "") 100⟩] }
    else acc
  let acc :=
    if findingKeywords.any fun kw => pyContains (pyLower explanation) kw then
      { acc with key_findings := acc.key_findings ++ [⟨i + 1, pyTake explanation 150⟩] }
    else acc
  acc

/-- Source `ConversationCompactor._extract_key_information`. -/
def extract_key_information (history : List HistTurn) : KeyInfo :=
  history.enum.foldl (fun acc p => extractTurn acc p.1 p.2) ⟨[], [], [], []⟩

/-- Source `ConversationCompactor._create_summary` (rule-based, no LLM). -/
def create_summary (keyInfo : KeyInfo) (customInstruction : Option String) : String :=
  let parts : List String :=
    match customInstruction with
    | some ci => if ci ≠ "" then ["**压缩说明**: " ++ ci ++ "\n"] else []
    | none => []
  let parts := parts ++ ["## 历史对话摘要\n"]
  let parts := parts ++
    (if keyInfo.important_decisions ≠ [] then
      ["### 关键决策"] ++
        ((keyInfo.important_decisions.take 5).map fun d =>
          "- 第" ++ toString d.turn ++ "轮: " ++ d.text) ++ [""]
    else [])
  let parts := parts ++
    (if keyInfo.code_changes ≠ [] then
      ["### 主要代码操作"] ++
        ((keyInfo.code_changes.take 5).map fun d =>
          "- 第" ++ toString d.turn ++ "轮: " ++ d.text) ++ [""]
    else [])
  let parts := parts ++
    (if keyInfo.errors_encountered ≠ [] then
      ["### 遇到的错误"] ++
        ((keyInfo.errors_encountered.take 3).map fun d =>
          "- 第" ++ toString d.turn ++ "轮: " ++ d.text) ++ [""]
    else [])
  let parts := parts ++
    (if keyInfo.key_findings ≠ [] then
      ["### 关键发现"] ++
        ((keyInfo.key_findings.take 5).map fun d =>
          "- 第" ++ toString d.turn ++ "轮: " ++ d.text) ++ [""]
    else [])
  let parts := if parts.length = 1 then parts ++ ["*（早期对话未发现关键信息）*"] else parts
  String.intercalate "\n" parts

/-- The synthetic summary turn prepended by `compact`: marker question,
empty code, trivially-successful result, and the generated summary. -/
def summaryTurn (toCompress : List HistTurn) (customInstruction : Option String) : HistTurn :=
  { question := "【历史对话摘要】",
    code := "",
    result := { success := true, stdout := some "" },
    explanation := create_summary (extract_key_information toCompress) customInstruction }

/-- Source `ConversationCompactor.compact` (the `llm_client`, threshold and ratio
fields of the class are never read by `compact`; only `keep_recent`
matters). -/
def compact (keepRecent : ℕ) (history : List HistTurn)
    (customInstruction : Option String) : List HistTurn :=
  if history.length ≤ keepRecent then history
  else
    let toCompress := pySliceDropLast history keepRecent
    let toKeep := pySliceLast history keepRecent
    summaryTurn toCompress customInstruction :: toKeep

end ConversationCompactor

/-! ## SessionManager (`src/src/core/session.py`) -/

/-- The `ConversationTurn` dataclass. -/
structure ConversationTurn where
  timestamp : String
  question : String
  code : String
  execution_result : PyResult
  explanation : String
  retry_count : ℕ := 0
  plot_path : Option String := none
deriving DecidableEq

namespace SessionManager

/-- The per-turn body of `SessionManager._turns_to_dicts`.  With
`only_successful = true`, a successful execution keeps `{success, stdout}`
(plus plot info when `plot_saved` is truthy), while a failed execution is
reduced to `{'success': False}`; with `only_successful = false` the stored
result dict is passed through unchanged. -/
def turnToDict (onlySuccessful : Bool) (turn : ConversationTurn) : HistTurn :=
  { question := turn.question,
    code := turn.code,
    explanation := turn.explanation,
    result :=
      if onlySuccessful then
        if turn.execution_result.success then
          let base : PyResult :=
            { success := true, stdout := some (turn.execution_result.stdout.getD "") }
          if turn.execution_result.plot_saved.getD false then
            { base with plot_saved := some true,
                        plot_path := some (turn.execution_result.plot_path.getD none) }
          else base
        else { success := false }
      else turn.execution_result }

/-- Source `SessionManager._turns_to_dicts`. -/
def turns_to_dicts (turns : List ConversationTurn) (onlySuccessful : Bool) :
    List HistTurn :=
  turns.map (turnToDict onlySuccessful)

end SessionManager

/-! ## AnalysisWorkflow (`src/src/core/workflow.py`)

`_generate_and_execute_with_retry` interacts with three external services:
the generation service (`llm.generate_code`, which either returns a code
string or raises), the executor (`executor.execute`, which returns a
result dict and does not raise), and the blocking deep-analysis path
(`async_error_analyzer.analyze_error_with_thinking`, which catches its own
API failures and always returns a dict `{'success': bool, 'code': str|None}`).
Their behaviour is the loop's input. -/

/-- What generation and execution do at a given attempt index:
`gen = none` models `llm.generate_code` raising (a generation-service
failure); otherwise `gen = some code` and `execResult` is the executor's
result dict for that code. -/
structure AttemptBehavior where
  gen : Option String
  execResult : PyResult
deriving DecidableEq

/-- The deep-analysis (thinking) fallback's behaviour: the dict returned by
`analyze_error_with_thinking` (`success`, `code`, with `code = none`
modelling `'code': None`), and the executor's result for the candidate
code should it be run. -/
structure ThinkingBehavior where
  success : Bool
  code : Option String
  execResult : PyResult
deriving DecidableEq

/-- Observable events of one retry cycle, for stating *never happens* /
*only at attempt 0* properties. -/
inductive TraceEv where
  /-- `llm.generate_code` was invoked for this attempt index -/
  | genCall (attempt : ℕ)
  /-- the generation call raised -/
  | genRaised (attempt : ℕ)
  /-- the generated code was executed -/
  | execCall (attempt : ℕ) (code : String)
  /-- `analyze_error_with_thinking` was invoked at this attempt index -/
  | deepAnalysisInvoked (attempt : ℕ)
  /-- the deep-analysis candidate code was executed -/
  | deepAnalysisExec (code : String)
deriving DecidableEq

/-- The `(code, result, retry_count)` tuple returned by
`_generate_and_execute_with_retry` (`None` components as `Option`). -/
structure RetryReturn where
  code : Option String
  result : Option PyResult
  retryCount : ℕ
deriving DecidableEq

namespace AnalysisWorkflow

/-- The loop of `_generate_and_execute_with_retry`, with
`fuel = maxRetries - attempt` remaining iterations.  Mirrors the source:

* fuel exhausted (the `for` loop ends): return `(last_code, last_result,
  max_retries)`;
* the generation call raises: on `attempt < max_retries - 1` show the
  error and `continue`, else return `(last_code, last_result, attempt)`;
* execution succeeds: return `(code, result, attempt)`;
* execution fails at `attempt == 0`: run the blocking deep analysis; when
  it reports success with truthy (non-`None`, non-empty) code, execute the
  candidate — success returns `(candidate, its result, attempt)`, failure
  falls through to the next iteration; with no usable candidate fall
  through as well;
* execution fails at `attempt > 0`: next iteration. -/
def retryGo (maxRetries : ℕ) (behav : ℕ → AttemptBehavior) (think : ThinkingBehavior) :
    ℕ → ℕ → Option String → Option PyResult → List TraceEv × RetryReturn
  | 0, _attempt, lastCode, lastResult => ([], ⟨lastCode, lastResult, maxRetries⟩)
  | fuel + 1, attempt, lastCode, lastResult =>
    match (behav attempt).gen with
    | none =>
        if attempt < maxRetries - 1 then
          let r := retryGo maxRetries behav think fuel (attempt + 1) lastCode lastResult
          (.genCall attempt :: .genRaised attempt :: r.1, r.2)
        else
          ([.genCall attempt, .genRaised attempt], ⟨lastCode, lastResult, attempt⟩)
    | some code =>
        let res := (behav attempt).execResult
        if res.success then
          ([.genCall attempt, .execCall attempt code], ⟨some code, some res, attempt⟩)
        else
          if attempt = 0 then
            if think.success = true ∧ think.code.getD "" ≠ "" then
              let tcode := think.code.getD ""
              if think.execResult.success then
                ([.genCall attempt, .execCall attempt code,
                  .deepAnalysisInvoked attempt, .deepAnalysisExec tcode],
                 ⟨some tcode, some think.execResult, attempt⟩)
              else
                let r := retryGo maxRetries behav think fuel (attempt + 1)
                  (some code) (some res)
                (.genCall attempt :: .execCall attempt code ::
                  .deepAnalysisInvoked attempt :: .deepAnalysisExec tcode :: r.1, r.2)
            else
              let r := retryGo maxRetries behav think fuel (attempt + 1)
                (some code) (some res)
              (.genCall attempt :: .execCall attempt code ::
                .deepAnalysisInvoked attempt :: r.1, r.2)
          else
            let r := retryGo maxRetries behav think fuel (attempt + 1)
              (some code) (some res)
            (.genCall attempt :: .execCall attempt code :: r.1, r.2)

/-- Source `AnalysisWorkflow._generate_and_execute_with_retry`: run the loop from
attempt 0 with `last_code = last_result = None`. -/
def generate_and_execute_with_retry (maxRetries : ℕ) (behav : ℕ → AttemptBehavior)
    (think : ThinkingBehavior) : List TraceEv × RetryReturn :=
  retryGo maxRetries behav think maxRetries 0 none none

/-- A deep-analysis behaviour that produces no usable candidate
(`{'success': False, 'code': None}`), as returned on an analyzer failure. -/
def noThinking : ThinkingBehavior :=
  { success := false, code := none, execResult := { success := false } }

end AnalysisWorkflow

/-! ## Concrete fixtures used by witnesses and counterexamples -/

/-- A successful execution result dict. -/
def okResult : PyResult :=
  { success := true, stdout := some "42\n", stderr := some "" }

/-- A failed execution result dict (a `KeyError` during execution). -/
def keyErrorResult : PyResult :=
  { success := false, error_type := some "KeyError", error := some "'Sales'",
    error_message := some "'Sales'", traceback := some "Traceback (most recent call last):",
    stdout := some "", stderr := some "" }

/-- A history dict for a successful turn. -/
def sampleHistTurn : HistTurn :=
  { question := "查看数据概况", code := "print(df.shape)",
    result := { success := true, stdout := some "(100, 5)\n" },
    explanation := "数据共100行5列" }

/-- A second history dict. -/
def sampleHistTurn2 : HistTurn :=
  { question := "统计平均值", code := "print(df.mean())",
    result := { success := true, stdout := some "1.0\n" },
    explanation := "平均值为1.0" }

/-- A stored session turn whose execution failed. -/
def failedTurn : ConversationTurn :=
  { timestamp := "2026-10-12T00:00:00", question := "按月份统计销量",
    code := "print(df['Sales'].sum())", execution_result := keyErrorResult,
    explanation := "（解释生成失败）" }

/-- Attempt behaviour for the C2 scenario: the generation service raises on
attempt 0 and generates code that executes successfully on every later
attempt. -/
def genFailThenOk : ℕ → AttemptBehavior := fun a =>
  if a = 0 then { gen := none, execResult := { success := false } }
  else { gen := some "print(df.shape)", execResult := okResult }

/-! ## Helper lemmas -/


theorem pyCountList_nil_needle (s : List Char) : pyCountList [] s = s.length + 1 := by
  rw [pyCountList.eq_def]
  simp

theorem pyCountList_nil (sub : List Char) (h : sub ≠ []) : pyCountList sub [] = 0 := by
  rw [pyCountList.eq_def]
  simp [h]

theorem pyCountList_cons_pos (sub : List Char) (c : Char) (rest : List Char)
    (h : sub ≠ []) (hp : sub.isPrefixOf (c :: rest) = true) :
    pyCountList sub (c :: rest) = 1 + pyCountList sub ((c :: rest).drop sub.length) := by
  rw [pyCountList.eq_def]
  simp [h, hp]

theorem pyCountList_cons_neg (sub : List Char) (c : Char) (rest : List Char)
    (h : sub ≠ []) (hp : sub.isPrefixOf (c :: rest) = false) :
    pyCountList sub (c :: rest) = pyCountList sub rest := by
  rw [pyCountList.eq_def]
  simp [h, hp]

theorem isPrefixOf_eq_false_of_not (a b : List Char) (h : ¬ a <+: b) :
    a.isPrefixOf b = false := by
  cases he : a.isPrefixOf b
  · rfl
  · exact absurd (List.isPrefixOf_iff_prefix.mp he) h

/-- A needle longer than the haystack never occurs. -/
theorem pyCountList_eq_zero_of_lt (sub : List Char) :
    ∀ s : List Char, s.length < sub.length → pyCountList sub s = 0 := by
  intro s
  induction s with
  | nil =>
      intro h
      have hsub : sub ≠ [] := by
        intro he
        simp [he] at h
      exact pyCountList_nil sub hsub
  | cons c rest ih =>
      intro h
      have hsub : sub ≠ [] := by
        intro he
        simp [he] at h
      have hp : sub.isPrefixOf (c :: rest) = false := by
        apply isPrefixOf_eq_false_of_not
        intro hpre
        have := hpre.length_le
        omega
      rw [pyCountList_cons_neg sub c rest hsub hp]
      exact ih (by simp at h ⊢; omega)

/-- Appending text never decreases the non-overlapping occurrence count:
the greedy left-to-right scan of `s ++ t` finds at least every match the
scan of `s` finds. -/
theorem pyCountList_le_append (sub : List Char) :
    ∀ (n : ℕ) (s t : List Char), s.length = n →
      pyCountList sub s ≤ pyCountList sub (s ++ t) := by
  intro n
  induction n using Nat.strong_induction_on with
  | _ n ih =>
    intro s t hlen
    by_cases hsub : sub = []
    · subst hsub
      rw [pyCountList_nil_needle, pyCountList_nil_needle]
      simp
    · cases s with
      | nil =>
          rw [pyCountList_nil sub hsub]
          exact Nat.zero_le _
      | cons c rest =>
          by_cases hp : sub <+: c :: rest
          · have hptrue : sub.isPrefixOf (c :: rest) = true :=
              List.isPrefixOf_iff_prefix.mpr hp
            have hlensub : sub.length ≤ (c :: rest).length := hp.length_le
            have hp2 : sub.isPrefixOf (c :: (rest ++ t)) = true := by
              rw [List.isPrefixOf_iff_prefix]
              exact hp.trans (List.prefix_append (c :: rest) t)
            rw [pyCountList_cons_pos sub c rest hsub hptrue]
            rw [show ((c :: rest) ++ t) = c :: (rest ++ t) from rfl,
              pyCountList_cons_pos sub c (rest ++ t) hsub hp2]
            have hdrop : (c :: (rest ++ t)).drop sub.length =
                ((c :: rest).drop sub.length) ++ t := by
              rw [show (c :: (rest ++ t)) = (c :: rest) ++ t from rfl,
                List.drop_append_eq_append_drop,
                Nat.sub_eq_zero_of_le hlensub, List.drop_zero]
            rw [hdrop]
            have hlt : ((c :: rest).drop sub.length).length < n := by
              have h1 : 1 ≤ sub.length := by
                cases sub with
                | nil => exact absurd rfl hsub
                | cons a as => simp
              simp only [List.length_drop, List.length_cons] at *
              omega
            exact Nat.add_le_add_left
              (ih _ hlt ((c :: rest).drop sub.length) t rfl) 1
          · have hpfalse : sub.isPrefixOf (c :: rest) = false :=
              isPrefixOf_eq_false_of_not sub (c :: rest) hp
            by_cases hp2 : sub <+: c :: (rest ++ t)
            · -- boundary match: `sub` sticks out past `s`, so no match fits in `s`
              have hsp : (c :: rest) <+: c :: (rest ++ t) :=
                List.prefix_append (c :: rest) t
              have hcomp := List.prefix_or_prefix_of_prefix hp2 hsp
              have hlong : (c :: rest).length ≤ sub.length := by
                rcases hcomp with hc1 | hc2
                · exact absurd hc1 hp
                · exact hc2.length_le
              rw [pyCountList_cons_neg sub c rest hsub hpfalse]
              rw [pyCountList_eq_zero_of_lt sub rest
                (by simp only [List.length_cons] at hlong; omega)]
              exact Nat.zero_le _
            · have hp2false : sub.isPrefixOf (c :: (rest ++ t)) = false :=
                isPrefixOf_eq_false_of_not sub (c :: (rest ++ t)) hp2
              rw [pyCountList_cons_neg sub c rest hsub hpfalse]
              rw [show ((c :: rest) ++ t) = c :: (rest ++ t) from rfl,
                pyCountList_cons_neg sub c (rest ++ t) hsub hp2false]
              exact ih rest.length (by simp [← hlen]) rest t rfl

theorem pyCount_le_append (s t sub : String) : pyCount s sub ≤ pyCount (s ++ t) sub := by
  unfold pyCount
  rw [String.data_append]
  exact pyCountList_le_append sub.data s.data.length s.data t.data rfl

theorem codeDensity_le_append (s t : String) :
    TokenCounter.codeDensity s ≤ TokenCounter.codeDensity (s ++ t) := by
  unfold TokenCounter.codeDensity
  exact List.sum_le_sum fun ind _ => pyCount_le_append s t ind

theorem string_append_ne_empty (s t : String) (hs : s ≠ "") : s ++ t ≠ "" := by
  intro h
  apply hs
  have hd : s.data ++ t.data = [] := by
    rw [← String.data_append, h]
  cases s with
  | mk sd =>
      cases t with
      | mk td =>
          simp only [String.data] at hd
          rcases List.append_eq_nil.mp hd with ⟨h1, _⟩
          simp [h1]

/-- Source `estimate_tokens` never decreases when text is appended: the character
class counts only grow, and the code-density weight can only step up
(from 0.25 to 0.4), never down. -/
theorem estimate_tokens_le_append (s t : String) :
    TokenCounter.estimate_tokens s ≤ TokenCounter.estimate_tokens (s ++ t) := by
  by_cases hs : s = ""
  · have h0 : TokenCounter.estimate_tokens s = 0 := by
      rw [hs]
      rfl
    rw [h0]
    exact Nat.zero_le _
  · have hst : s ++ t ≠ "" := string_append_ne_empty s t hs
    rw [TokenCounter.estimate_tokens, TokenCounter.estimate_tokens, if_neg hs, if_neg hst]
    apply Nat.floor_mono
    have hdata : (s ++ t).data = s.data ++ t.data := String.data_append s t
    have hcount : (s ++ t).data.countP TokenCounter.isChineseChar =
        s.data.countP TokenCounter.isChineseChar +
          t.data.countP TokenCounter.isChineseChar := by
      rw [hdata, List.countP_append]
    have hlen : pyLen (s ++ t) = pyLen s + pyLen t := by
      unfold pyLen
      rw [hdata, List.length_append]
    have hc1 : s.data.countP TokenCounter.isChineseChar ≤ s.data.length :=
      List.countP_le_length _
    have hc2 : t.data.countP TokenCounter.isChineseChar ≤ t.data.length :=
      List.countP_le_length _
    have hd := codeDensity_le_append s t
    have hw0 : (0 : ℚ) ≤ if TokenCounter.codeDensity s > 5 then (2 : ℚ)/5 else 1/4 := by
      split_ifs <;> norm_num
    have hwle : (if TokenCounter.codeDensity s > 5 then (2 : ℚ)/5 else 1/4) ≤
        (if TokenCounter.codeDensity (s ++ t) > 5 then (2 : ℚ)/5 else 1/4) := by
      split_ifs with h1 h2
      · exact le_refl _
      · exact absurd (Nat.lt_of_lt_of_le h1 hd) h2
      · norm_num
      · exact le_refl _
    have hchle : ((s.data.countP TokenCounter.isChineseChar : ℚ)) ≤
        ((s ++ t).data.countP TokenCounter.isChineseChar : ℚ) := by
      rw [hcount]
      push_cast
      linarith [Nat.cast_nonneg (α := ℚ) (t.data.countP TokenCounter.isChineseChar)]
    have henle : ((pyLen s - s.data.countP TokenCounter.isChineseChar : ℕ) : ℚ) ≤
        ((pyLen (s ++ t) - (s ++ t).data.countP TokenCounter.isChineseChar : ℕ) : ℚ) := by
      have : pyLen s - s.data.countP TokenCounter.isChineseChar ≤
          pyLen (s ++ t) - (s ++ t).data.countP TokenCounter.isChineseChar := by
        unfold pyLen at *
        omega
      exact_mod_cast this
    have hen2 : (0 : ℚ) ≤
        ((pyLen (s ++ t) - (s ++ t).data.countP TokenCounter.isChineseChar : ℕ) : ℚ) :=
      Nat.cast_nonneg _
    calc (s.data.countP TokenCounter.isChineseChar : ℚ) * (3/2) +
          ((pyLen s - s.data.countP TokenCounter.isChineseChar : ℕ) : ℚ) *
            (if TokenCounter.codeDensity s > 5 then (2 : ℚ)/5 else 1/4)
        ≤ ((s ++ t).data.countP TokenCounter.isChineseChar : ℚ) * (3/2) +
          ((pyLen (s ++ t) - (s ++ t).data.countP TokenCounter.isChineseChar : ℕ) : ℚ) *
            (if TokenCounter.codeDensity (s ++ t) > 5 then (2 : ℚ)/5 else 1/4) := by
          apply add_le_add
          · exact mul_le_mul_of_nonneg_right hchle (by norm_num)
          · exact mul_le_mul henle hwle hw0 hen2

/-- The deep-analysis path is entered only inside the `attempt == 0` branch,
so any recorded invocation carries attempt index 0. -/
theorem retryGo_deepAnalysis_only_zero (m : ℕ) (behav : ℕ → AttemptBehavior)
    (think : ThinkingBehavior) :
    ∀ (fuel attempt : ℕ) (lc : Option String) (lr : Option PyResult) (a : ℕ),
      TraceEv.deepAnalysisInvoked a ∈
        (AnalysisWorkflow.retryGo m behav think fuel attempt lc lr).1 → a = 0 := by
  intro fuel
  induction fuel with
  | zero =>
      intro attempt lc lr a h
      simp [AnalysisWorkflow.retryGo] at h
  | succ n ih =>
      intro attempt lc lr a h
      simp only [AnalysisWorkflow.retryGo] at h
      rcases hg : (behav attempt).gen with _ | code <;> simp only [hg] at h
      · by_cases hlt : attempt < m - 1
        · rw [if_pos hlt] at h
          simp only [List.mem_cons] at h
          rcases h with h | h | h
          · simp at h
          · simp at h
          · exact ih _ _ _ _ h
        · rw [if_neg hlt] at h
          simp at h
      · by_cases hres : (behav attempt).execResult.success = true
        · simp [hres] at h
        · have hresneg : ¬ ((behav attempt).execResult.success = true) := hres
          rw [if_neg hresneg] at h
          by_cases h0 : attempt = 0
          · subst h0
            rw [if_pos rfl] at h
            by_cases htr : think.success = true ∧ think.code.getD "" ≠ ""
            · rw [if_pos htr] at h
              by_cases hts : think.execResult.success = true
              · rw [if_pos hts] at h
                simp only [List.mem_cons, List.not_mem_nil, or_false] at h
                rcases h with h | h | h | h
                · simp at h
                · simp at h
                · simpa using h
                · simp at h
              · rw [if_neg hts] at h
                simp only [List.mem_cons] at h
                rcases h with h | h | h | h | h
                · simp at h
                · simp at h
                · simpa using h
                · simp at h
                · exact ih _ _ _ _ h
            · rw [if_neg htr] at h
              simp only [List.mem_cons] at h
              rcases h with h | h | h | h
              · simp at h
              · simp at h
              · simpa using h
              · exact ih _ _ _ _ h
          · rw [if_neg h0] at h
            simp only [List.mem_cons] at h
            rcases h with h | h | h
            · simp at h
            · simp at h
            · exact ih _ _ _ _ h

/-- At attempt indices ≥ 1 the loop never consults the deep-analysis
behaviour, so the run is independent of it. -/
theorem retryGo_think_indep (m : ℕ) (behav : ℕ → AttemptBehavior)
    (t1 t2 : ThinkingBehavior) :
    ∀ (fuel attempt : ℕ) (lc : Option String) (lr : Option PyResult), 1 ≤ attempt →
      AnalysisWorkflow.retryGo m behav t1 fuel attempt lc lr =
        AnalysisWorkflow.retryGo m behav t2 fuel attempt lc lr := by
  intro fuel
  induction fuel with
  | zero =>
      intro attempt lc lr ha
      simp [AnalysisWorkflow.retryGo]
  | succ n ih =>
      intro attempt lc lr ha
      simp only [AnalysisWorkflow.retryGo]
      rcases hg : (behav attempt).gen with _ | code <;> simp only [hg]
      · by_cases hlt : attempt < m - 1
        · simp only [if_pos hlt]
          rw [ih (attempt + 1) lc lr (by omega)]
        · simp only [if_neg hlt]
      · by_cases hres : (behav attempt).execResult.success = true
        · simp only [if_pos hres]
        · simp only [if_neg hres]
          have h0 : ¬ (attempt = 0) := by omega
          simp only [if_neg h0]
          rw [ih (attempt + 1) (some code) (some ((behav attempt).execResult)) (by omega)]

/-- C1: the spec demands that any module-import construct — of any module
whatsoever — is rejected by the static policy check and that the code is
then never executed.  The code enforces this only for the denylisted
`FORBIDDEN_MODULES`: the walked program `import json` contains an import
construct, yet `_check_code_safety` raises nothing and `execute` proceeds
to run the code (it only fails later, at runtime, because `__import__` is
missing from the sandbox builtins).  The class's own (unused)
`DANGEROUS_NODES = {ast.Import, ast.ImportFrom}` and its docstrings state
the spec's intent, so this is a code bug. -/
theorem C1_forbidden_import_gap :
    SandboxExecutor.containsImport
        [PyNode.otherNode, PyNode.importStmt ["json"], PyNode.otherNode] = true ∧
    SandboxExecutor.check_code_safety
        [PyNode.otherNode, PyNode.importStmt ["json"], PyNode.otherNode] = none ∧
    (SandboxExecutor.execute
        (some [PyNode.otherNode, PyNode.importStmt ["json"], PyNode.otherNode]) "" "" 30
        (SandboxExecutor.ExecEvent.raised "ImportError" "__import__ not found"
          "Traceback" "" "")).2 = true ∧
    (SandboxExecutor.execute
        (some [PyNode.otherNode, PyNode.importStmt ["json"], PyNode.otherNode]) "" "" 30
        (SandboxExecutor.ExecEvent.raised "ImportError" "__import__ not found"
          "Traceback" "" "")).1.error_type ≠ some "SecurityError" := by
  refine ⟨rfl, rfl, rfl, ?_⟩
  decide

/-- C2 (counterexample): the claim says a generation-service failure on
attempt 0 aborts the question immediately, with no further generation or
execution attempts.  In the code the `except` branch at attempt 0 merely
continues: with `max_retries = 3`, a generation failure at attempt 0
followed by a successful attempt 1 yields a *successful* question with
`retry_count = 1`, and both a second generation call and an execution
are observed. -/
theorem C2_counterexample :
    (AnalysisWorkflow.generate_and_execute_with_retry 3 genFailThenOk
        AnalysisWorkflow.noThinking).2 =
      ⟨some "print(df.shape)", some okResult, 1⟩ ∧
    TraceEv.genCall 1 ∈
      (AnalysisWorkflow.generate_and_execute_with_retry 3 genFailThenOk
        AnalysisWorkflow.noThinking).1 ∧
    TraceEv.execCall 1 "print(df.shape)" ∈
      (AnalysisWorkflow.generate_and_execute_with_retry 3 genFailThenOk
        AnalysisWorkflow.noThinking).1 := by
  refine ⟨by decide, by decide, by decide⟩

/-- C2 (amended): a generation-service failure consumes exactly one retry
slot on *every* attempt, attempt 0 included: on any attempt before the
last, the loop proceeds to the next attempt with the prior `last_code` /
`last_result` retained; on the last attempt the loop returns the prior
outcome with `retry_count = attempt`.  There is no immediate abort
special-cased to attempt 0. -/
theorem C2_genFailure_step (m : ℕ) (behav : ℕ → AttemptBehavior)
    (think : ThinkingBehavior) (fuel attempt : ℕ)
    (lastCode : Option String) (lastResult : Option PyResult)
    (hg : (behav attempt).gen = none) :
    (attempt < m - 1 →
      (AnalysisWorkflow.retryGo m behav think (fuel + 1) attempt lastCode lastResult).2 =
        (AnalysisWorkflow.retryGo m behav think fuel (attempt + 1) lastCode lastResult).2) ∧
    (¬ attempt < m - 1 →
      (AnalysisWorkflow.retryGo m behav think (fuel + 1) attempt lastCode lastResult).2 =
        ⟨lastCode, lastResult, attempt⟩) := by
  constructor <;> intro h
  · simp only [AnalysisWorkflow.retryGo, hg, if_pos h]
  · simp only [AnalysisWorkflow.retryGo, hg, if_neg h]

theorem C2_witness :
    (0 < 3 - 1 →
      (AnalysisWorkflow.retryGo 3 (fun _ => ⟨none, { success := false }⟩)
          AnalysisWorkflow.noThinking 3 0 none none).2 =
        (AnalysisWorkflow.retryGo 3 (fun _ => ⟨none, { success := false }⟩)
          AnalysisWorkflow.noThinking 2 1 none none).2) ∧
    (¬ 0 < 3 - 1 →
      (AnalysisWorkflow.retryGo 3 (fun _ => ⟨none, { success := false }⟩)
          AnalysisWorkflow.noThinking 3 0 none none).2 = ⟨none, none, 0⟩) :=
  C2_genFailure_step 3 (fun _ => ⟨none, { success := false }⟩)
    AnalysisWorkflow.noThinking 2 0 none none rfl

/-- C3: the deep-analysis (thinking) fallback is invoked only when the
failing attempt is attempt 0; when its candidate code executes
successfully the cycle returns the candidate's code and outcome with
`retry_count = 0`; when the candidate fails the loop falls through to
ordinary retry exactly as if no candidate had been produced, so the
deep-analysis attempt consumes no retry slot. -/
theorem C3_deep_analysis_fallback (m : ℕ) (behav : ℕ → AttemptBehavior)
    (think : ThinkingBehavior) (c : String)
    (hm : 1 ≤ m) (hgen : (behav 0).gen = some c)
    (hfail : (behav 0).execResult.success = false) :
    (∀ a, TraceEv.deepAnalysisInvoked a ∈
        (AnalysisWorkflow.generate_and_execute_with_retry m behav think).1 → a = 0) ∧
    (∀ tc, think.success = true → think.code = some tc → tc ≠ "" →
      think.execResult.success = true →
      (AnalysisWorkflow.generate_and_execute_with_retry m behav think).2 =
        ⟨some tc, some think.execResult, 0⟩) ∧
    (think.execResult.success = false →
      (AnalysisWorkflow.generate_and_execute_with_retry m behav think).2 =
        (AnalysisWorkflow.generate_and_execute_with_retry m behav
          AnalysisWorkflow.noThinking).2) := by
  refine ⟨?_, ?_, ?_⟩
  · intro a h
    exact retryGo_deepAnalysis_only_zero m behav think m 0 none none a h
  · intro tc hsucc hcode htc hexec
    obtain ⟨k, rfl⟩ : ∃ k, m = k + 1 := ⟨m - 1, by omega⟩
    unfold AnalysisWorkflow.generate_and_execute_with_retry
    simp only [AnalysisWorkflow.retryGo, hgen]
    have hresneg : ¬ ((behav 0).execResult.success = true) := by simp [hfail]
    have htruthy : think.success = true ∧ think.code.getD "" ≠ "" := by
      refine ⟨hsucc, ?_⟩
      rw [hcode, Option.getD_some]
      exact htc
    rw [if_neg hresneg, if_pos trivial, if_pos htruthy, if_pos hexec]
    simp [hcode]
  · intro hts
    cases m with
    | zero => exact absurd hm (by omega)
    | succ k =>
        unfold AnalysisWorkflow.generate_and_execute_with_retry
        simp only [AnalysisWorkflow.retryGo, hgen]
        have hresneg : ¬ ((behav 0).execResult.success = true) := by simp [hfail]
        rw [if_neg hresneg, if_neg hresneg, if_pos trivial, if_pos trivial]
        have hnt : ¬ (AnalysisWorkflow.noThinking.success = true ∧
            AnalysisWorkflow.noThinking.code.getD "" ≠ "") := by
          simp [AnalysisWorkflow.noThinking]
        rw [if_neg hnt]
        have hind := retryGo_think_indep (k + 1) behav think AnalysisWorkflow.noThinking
          k (0 + 1) (some c) (some ((behav 0).execResult)) (by omega)
        by_cases htr : think.success = true ∧ think.code.getD "" ≠ ""
        · rw [if_pos htr]
          have htsneg : ¬ (think.execResult.success = true) := by simp [hts]
          rw [if_neg htsneg]
          rw [hind]
        · rw [if_neg htr]
          rw [hind]

theorem C3_witness :
    (AnalysisWorkflow.generate_and_execute_with_retry 2
        (fun _ => ⟨some "df.mean()", { success := false }⟩)
        ⟨true, some "print(1)", okResult⟩).2 =
      ⟨some "print(1)", some okResult, 0⟩ :=
  (C3_deep_analysis_fallback 2 (fun _ => ⟨some "df.mean()", { success := false }⟩)
      ⟨true, some "print(1)", okResult⟩ "df.mean()" (by omega) rfl rfl).2.1
    "print(1)" rfl rfl (by decide) rfl

/-- C4 (counterexample): the claim requires `success = false ⇒ error_message
present and non-empty` for every outcome returned by `execute`, but the
timeout path of `_execute_with_timeout` builds its dict without any
`error_message` key: a genuine timeout refutes the claim. -/
theorem C4_counterexample :
    (SandboxExecutor.execute (some [PyNode.otherNode]) "" "" 30
        (SandboxExecutor.ExecEvent.timedOut "partial output" "" "Traceback")).1.success
      = false ∧
    (SandboxExecutor.execute (some [PyNode.otherNode]) "" "" 30
        (SandboxExecutor.ExecEvent.timedOut "partial output" "" "Traceback")).1.error_message
      = none := by
  exact ⟨rfl, rfl⟩

/-- C4 (amended): every outcome returned by `execute` with
`success = false` carries a present, non-empty `error_type` and a present
`error` field (`error_message` is additionally present on the
security-violation and runtime-exception paths but absent on the
syntax-error and timeout paths, and the `error` text of a runtime
exception is whatever `str(e)` was); with `success = true` no error field
is present.  The hypothesis reflects that a Python exception class name is
never empty. -/
theorem C4_outcome_error_fields (parsed : Option (List PyNode)) (synMsg syntb : String)
    (timeout : ℕ) (ev : SandboxExecutor.ExecEvent)
    (hty : ∀ etype emsg tb stdout stderr,
      ev = SandboxExecutor.ExecEvent.raised etype emsg tb stdout stderr → etype ≠ "") :
    ((SandboxExecutor.execute parsed synMsg syntb timeout ev).1.success = false →
      (SandboxExecutor.execute parsed synMsg syntb timeout ev).1.error_type ≠ none ∧
      (SandboxExecutor.execute parsed synMsg syntb timeout ev).1.error_type ≠ some "" ∧
      (SandboxExecutor.execute parsed synMsg syntb timeout ev).1.error ≠ none) ∧
    ((SandboxExecutor.execute parsed synMsg syntb timeout ev).1.success = true →
      (SandboxExecutor.execute parsed synMsg syntb timeout ev).1.error_type = none ∧
      (SandboxExecutor.execute parsed synMsg syntb timeout ev).1.error = none ∧
      (SandboxExecutor.execute parsed synMsg syntb timeout ev).1.error_message = none ∧
      (SandboxExecutor.execute parsed synMsg syntb timeout ev).1.traceback = none) := by
  cases parsed with
  | none => simp [SandboxExecutor.execute]
  | some nodes =>
      cases hc : SandboxExecutor.check_code_safety nodes with
      | some violation => simp [SandboxExecutor.execute, hc]
      | none =>
          cases ev with
          | completed stdout stderr =>
              simp [SandboxExecutor.execute, hc, SandboxExecutor.execute_with_timeout]
          | timedOut stdout stderr tb =>
              simp [SandboxExecutor.execute, hc, SandboxExecutor.execute_with_timeout]
          | raised etype emsg tb stdout stderr =>
              have hty' := hty etype emsg tb stdout stderr rfl
              simp only [SandboxExecutor.execute, hc, SandboxExecutor.execute_with_timeout,
                SandboxExecutor.classifyRuntimeError]
              split_ifs with hcl
              · simp
              · simp [hty']

theorem C4_witness :
    ((SandboxExecutor.execute (some [PyNode.otherNode]) "" "" 30
        (SandboxExecutor.ExecEvent.completed "ok" "")).1.success = false →
      (SandboxExecutor.execute (some [PyNode.otherNode]) "" "" 30
        (SandboxExecutor.ExecEvent.completed "ok" "")).1.error_type ≠ none ∧
      (SandboxExecutor.execute (some [PyNode.otherNode]) "" "" 30
        (SandboxExecutor.ExecEvent.completed "ok" "")).1.error_type ≠ some "" ∧
      (SandboxExecutor.execute (some [PyNode.otherNode]) "" "" 30
        (SandboxExecutor.ExecEvent.completed "ok" "")).1.error ≠ none) ∧
    ((SandboxExecutor.execute (some [PyNode.otherNode]) "" "" 30
        (SandboxExecutor.ExecEvent.completed "ok" "")).1.success = true →
      (SandboxExecutor.execute (some [PyNode.otherNode]) "" "" 30
        (SandboxExecutor.ExecEvent.completed "ok" "")).1.error_type = none ∧
      (SandboxExecutor.execute (some [PyNode.otherNode]) "" "" 30
        (SandboxExecutor.ExecEvent.completed "ok" "")).1.error = none ∧
      (SandboxExecutor.execute (some [PyNode.otherNode]) "" "" 30
        (SandboxExecutor.ExecEvent.completed "ok" "")).1.error_message = none ∧
      (SandboxExecutor.execute (some [PyNode.otherNode]) "" "" 30
        (SandboxExecutor.ExecEvent.completed "ok" "")).1.traceback = none) :=
  C4_outcome_error_fields (some [PyNode.otherNode]) "" "" 30
    (SandboxExecutor.ExecEvent.completed "ok" "") (fun _ _ _ _ _ h => nomatch h)

/-- C7: whenever the sandboxed run exceeds the wall-clock timeout, the
outcome `execute` returns reports `error_kind = TimeoutError`, never
`success = true`, and still carries the stdout/stderr captured up to the
interrupt. -/
theorem C7_timeout_outcome (nodes : List PyNode) (synMsg syntb : String) (timeout : ℕ)
    (stdout stderr tb : String)
    (h : SandboxExecutor.check_code_safety nodes = none) :
    (SandboxExecutor.execute (some nodes) synMsg syntb timeout
        (SandboxExecutor.ExecEvent.timedOut stdout stderr tb)).1 =
      { success := false,
        error_type := some "TimeoutError",
        error := some (SandboxExecutor.timeoutErrorMessage timeout),
        traceback := some tb,
        stdout := some stdout,
        stderr := some stderr } := by
  simp [SandboxExecutor.execute, h, SandboxExecutor.execute_with_timeout]

theorem C7_witness :
    (SandboxExecutor.execute (some [PyNode.otherNode]) "" "" 30
        (SandboxExecutor.ExecEvent.timedOut "partial" "" "tb")).1 =
      { success := false,
        error_type := some "TimeoutError",
        error := some (SandboxExecutor.timeoutErrorMessage 30),
        traceback := some "tb",
        stdout := some "partial",
        stderr := some "" } :=
  C7_timeout_outcome [PyNode.otherNode] "" "" 30 "partial" "" "tb" rfl

/-- C5 (counterexample): the claim quantifies over *every* `keep_recent`
value, but with `keep_recent = 0` the Python slice `history[-0:]` is the
whole history, so compaction of a 1-turn history yields the summary turn
followed by the entire original history (2 turns), not the summary turn
followed by the last 0 turns (1 turn). -/
theorem C5_counterexample :
    (ConversationCompactor.compact 0 [sampleHistTurn] none).length = 2 ∧
    (ConversationCompactor.compact 0 [sampleHistTurn] none).drop 1 = [sampleHistTurn] := by
  exact ⟨rfl, rfl⟩

/-- C5 (amended): for every `keep_recent = k ≥ 1`, `compact` returns the
history unchanged when `len(history) ≤ k`, and otherwise returns exactly
`k + 1 = len(to_keep) + 1` turns: one summary turn followed by the last
`k` original turns unmodified. -/
theorem C5_compact_shape (history : List HistTurn) (customInstruction : Option String)
    (k : ℕ) (hk : 1 ≤ k) :
    (history.length ≤ k →
      ConversationCompactor.compact k history customInstruction = history) ∧
    (k < history.length →
      ConversationCompactor.compact k history customInstruction =
        ConversationCompactor.summaryTurn (history.take (history.length - k))
          customInstruction :: history.drop (history.length - k) ∧
      (ConversationCompactor.compact k history customInstruction).length = k + 1) := by
  constructor
  · intro h
    simp [ConversationCompactor.compact, h]
  · intro h
    have hnot : ¬ history.length ≤ k := by omega
    have hk0 : k ≠ 0 := by omega
    constructor
    · simp [ConversationCompactor.compact, hnot, pySliceDropLast, pySliceLast, hk0]
    · simp only [ConversationCompactor.compact, if_neg hnot, pySliceLast, pySliceDropLast,
        if_neg hk0, List.length_cons, List.length_drop]
      omega

theorem C5_witness :
    ConversationCompactor.compact 1 [sampleHistTurn, sampleHistTurn2] none =
      ConversationCompactor.summaryTurn [sampleHistTurn] none :: [sampleHistTurn2] ∧
    (ConversationCompactor.compact 1 [sampleHistTurn, sampleHistTurn2] none).length = 1 + 1 :=
  (C5_compact_shape [sampleHistTurn, sampleHistTurn2] none 1 (by omega)).2 (by decide)

/-- C6: `should_compact(total)` is true exactly when `total` reaches
`int(model_max_tokens * compression_threshold)`, which for the
non-negative threshold equals `floor(model_max_tokens × threshold)`; in
particular the boundary value itself triggers compaction, since the
comparison is `>=`. -/
theorem C6_should_compact_iff (modelMaxTokens : Option ℕ)
    (compressionThreshold : Option ℚ) (total : ℕ)
    (h : 0 ≤ (TokenCounter.init modelMaxTokens compressionThreshold).compression_threshold) :
    (TokenCounter.init modelMaxTokens compressionThreshold).should_compact total = true ↔
      ⌊((TokenCounter.init modelMaxTokens compressionThreshold).model_max_tokens : ℚ) *
        (TokenCounter.init modelMaxTokens compressionThreshold).compression_threshold⌋ ≤
        (total : ℤ) := by
  set c := TokenCounter.init modelMaxTokens compressionThreshold with hc
  have hnn : (0 : ℚ) ≤ (c.model_max_tokens : ℚ) * c.compression_threshold :=
    mul_nonneg (Nat.cast_nonneg _) h
  have hsafe : c.safe_max_tokens =
      ⌊(c.model_max_tokens : ℚ) * c.compression_threshold⌋ := by
    have h0 : c.safe_max_tokens =
        pyInt ((c.model_max_tokens : ℚ) * c.compression_threshold) := rfl
    rw [h0, pyInt, if_pos hnn]
  simp [TokenCounter.should_compact, hsafe]

theorem C6_witness :
    ((TokenCounter.init none none).should_compact 89600 = true ↔
      ⌊((TokenCounter.init none none).model_max_tokens : ℚ) *
        (TokenCounter.init none none).compression_threshold⌋ ≤ (89600 : ℤ)) :=
  C6_should_compact_iff none none 89600
    (by norm_num [TokenCounter.init, TokenCounter.DEFAULT_THRESHOLD])

/-- C8: any syntactically valid program whose walk contains an attribute
access with a dunder-convention name is flagged by the policy check: if
the walk reaches that node it raises there, and if it stops earlier it has
already raised another violation — either way a Violation is reported. -/
theorem C8_dunder_rejected (nodes : List PyNode)
    (h : SandboxExecutor.containsDunderAttr nodes = true) :
    (SandboxExecutor.check_code_safety nodes).isSome = true := by
  by_contra hcon
  have hnone : SandboxExecutor.check_code_safety nodes = none := by
    cases hcs : SandboxExecutor.check_code_safety nodes
    · rfl
    · exact absurd (by rw [hcs]; rfl) hcon
  have hall := List.findSome?_eq_none_iff.mp hnone
  rcases List.any_eq_true.mp h with ⟨n, hmem, hpred⟩
  have hv := hall _ hmem
  cases n with
  | attributeStmt attr =>
      have hpred2 : (pyStartsWith attr "__" && pyEndsWith attr "__") = true := hpred
      obtain ⟨ha, hb⟩ : pyStartsWith attr "__" = true ∧ pyEndsWith attr "__" = true := by
        simpa [Bool.and_eq_true] using hpred2
      simp [SandboxExecutor.nodeViolation] at hv
      have hc := hv ha
      rw [hb] at hc
      exact Bool.noConfusion hc
  | importStmt names => exact Bool.noConfusion hpred
  | importFromStmt module => exact Bool.noConfusion hpred
  | callStmt funcName => exact Bool.noConfusion hpred
  | otherNode => exact Bool.noConfusion hpred

theorem C8_witness :
    (SandboxExecutor.check_code_safety
      [PyNode.otherNode, PyNode.attributeStmt "__class__"]).isSome = true :=
  C8_dunder_rejected [PyNode.otherNode, PyNode.attributeStmt "__class__"] (by decide)

/-- C9: the token estimate is monotonically non-decreasing under extension
of the text: appending any (in particular any composition-preserving)
non-empty suffix cannot decrease the estimate, because both character
class counts grow and the code-density weight can only step upward. -/
theorem C9_estimate_monotone (t e : String) (_he : e ≠ "") :
    TokenCounter.estimate_tokens t ≤ TokenCounter.estimate_tokens (t ++ e) :=
  estimate_tokens_le_append t e

theorem C9_witness :
    TokenCounter.estimate_tokens "销量分析 df" ≤
      TokenCounter.estimate_tokens ("销量分析 df" ++ " 补充说明") :=
  C9_estimate_monotone "销量分析 df" " 补充说明" (by decide)

/-- C10: in the history handed out by the session manager, a failed turn's
result dict is exactly `{'success': False}` — error kind, message,
traceback and stdout omitted — and the budget computation adds stdout
tokens only for successful turns, so such a turn contributes exactly
question + code + explanation tokens. -/
theorem C10_failed_turn_slim (turns : List ConversationTurn) (t : ConversationTurn)
    (ht : t ∈ turns) (hf : t.execution_result.success = false) :
    SessionManager.turnToDict true t =
      { question := t.question, code := t.code, explanation := t.explanation,
        result := { success := false } } ∧
    SessionManager.turnToDict true t ∈ SessionManager.turns_to_dicts turns true ∧
    TokenCounter.turnHistoryTokens (SessionManager.turnToDict true t) =
      TokenCounter.estimate_tokens t.question + TokenCounter.estimate_tokens t.code +
        TokenCounter.estimate_tokens t.explanation ∧
    ∀ (question : String) (gt : Option ℕ) (gp : Option String),
      (TokenCounter.calculate_context_tokens question
          (SessionManager.turns_to_dicts turns true) gt gp).history =
        ((SessionManager.turns_to_dicts turns true).map
          TokenCounter.turnHistoryTokens).sum := by
  refine ⟨?_, ?_, ?_, ?_⟩
  · simp [SessionManager.turnToDict, hf]
  · exact List.mem_map_of_mem _ ht
  · simp [TokenCounter.turnHistoryTokens, SessionManager.turnToDict, hf]
  · intro question gt gp
    rfl

theorem C10_witness :
    SessionManager.turnToDict true failedTurn =
      { question := failedTurn.question, code := failedTurn.code,
        explanation := failedTurn.explanation, result := { success := false } } ∧
    SessionManager.turnToDict true failedTurn ∈
      SessionManager.turns_to_dicts [failedTurn] true ∧
    TokenCounter.turnHistoryTokens (SessionManager.turnToDict true failedTurn) =
      TokenCounter.estimate_tokens failedTurn.question +
        TokenCounter.estimate_tokens failedTurn.code +
        TokenCounter.estimate_tokens failedTurn.explanation ∧
    ∀ (question : String) (gt : Option ℕ) (gp : Option String),
      (TokenCounter.calculate_context_tokens question
          (SessionManager.turns_to_dicts [failedTurn] true) gt gp).history =
        ((SessionManager.turns_to_dicts [failedTurn] true).map
          TokenCounter.turnHistoryTokens).sum :=
  C10_failed_turn_slim [failedTurn] failedTurn (by simp) rfl
